import Mathlib

/-!
Shallow embedding of the resumable Discord retrieval engine of this
repository (`src/discord_retriever/models.py` and
`src/discord_retriever/fetcher.py`), together with theorems settling the
specification's claims about it.

Conventions of the embedding:
* Python `datetime` values are modelled as integral seconds (`Int`); every
  call to `datetime.now()` becomes an explicit `now : Int` argument, and
  `time.sleep(d)` advances the explicit clock by `d`.  All duration
  constants appearing in the source (60 s reset timeout, 300 s stall
  timeout, back-off delays) are integral, so nothing is lost by dropping
  the fractional part of Python's float seconds.
* `datetime.fromisoformat` is modelled on canonical timestamp tokens: a
  token parses iff it is a decimal integer literal (the instant it denotes,
  in seconds); any other token raises `ValueError` (`none` here), exactly
  as an unparsable ISO string does in CPython.
* Fallible Python code is translated to `Except String`; an `Except.error`
  models an uncaught raised exception, the string naming the exception.
* The external page source (`_call_discord_mcp`) is modelled as a list of
  per-attempt outcomes consumed in order; an exhausted list behaves like
  the source file's placeholder, which always raises `NotImplementedError`.
* File writes are modelled by an oracle list of `Bool` success flags
  consumed one per save call; an empty oracle means every write succeeds.
-/

deriving instance DecidableEq for Except

/-- State of `models.CircuitBreaker` (`models.py` 265-306). -/
structure CircuitBreaker where
  max_failures : Nat
  reset_timeout : Int
  failures : Nat
  last_failure_time : Option Int
  is_open : Bool
  deriving DecidableEq

/-- A freshly constructed `CircuitBreaker(max_failures=mf, reset_timeout=rt)`:
the dataclass defaults give `failures = 0`, `last_failure_time = None`,
`is_open = False`. -/
def CircuitBreaker.init (mf : Nat) (rt : Int) : CircuitBreaker :=
  ⟨mf, rt, 0, none, false⟩

/-- `CircuitBreaker.record_failure` (`models.py` 279-285); the call to
`datetime.now()` is the explicit argument `now`. -/
def CircuitBreaker.record_failure (cb : CircuitBreaker) (now : Int) : CircuitBreaker :=
  let failures := cb.failures + 1
  { cb with
      failures := failures
      last_failure_time := some now
      is_open := if cb.max_failures ≤ failures then true else cb.is_open }

/-- `CircuitBreaker.record_success` (`models.py` 287-291). -/
def CircuitBreaker.record_success (cb : CircuitBreaker) : CircuitBreaker :=
  { cb with failures := 0, is_open := false, last_failure_time := none }

/-- `CircuitBreaker.can_execute` (`models.py` 293-306): if the breaker is
open and has a last-failure stamp and strictly more than `reset_timeout`
seconds have elapsed, return `True`; otherwise fall through to
`return not self.is_open`.  (A Python `datetime` is always truthy, so the
guard `self.is_open and self.last_failure_time` tests `is not None`.) -/
def CircuitBreaker.can_execute (cb : CircuitBreaker) (now : Int) : Bool :=
  match cb.is_open, cb.last_failure_time with
  | true, some t => if cb.reset_timeout < now - t then true else !cb.is_open
  | _, _ => !cb.is_open

/-- The method `can_execute` as a state transformer on the receiver: its
body contains no assignment to `self`, so the receiver is returned
unchanged next to the boolean result. -/
def CircuitBreaker.can_execute_st (cb : CircuitBreaker) (now : Int) : CircuitBreaker × Bool :=
  (cb, cb.can_execute now)

/-- `n` successive `can_execute()` calls on the same breaker object at the
same instant, threading the receiver state; yields the final receiver state
and the list of results in call order. -/
def CircuitBreaker.can_execute_calls (cb : CircuitBreaker) (now : Int) :
    Nat → CircuitBreaker × List Bool
  | 0 => (cb, [])
  | n + 1 =>
    let r := cb.can_execute_st now
    let rest := CircuitBreaker.can_execute_calls r.1 now n
    (rest.1, r.2 :: rest.2)

/-- State of `models.ProgressTracker` (`models.py` 224-262). -/
structure ProgressTracker where
  total_items : Int
  processed_items : Int
  stall_timeout : Int
  last_update_time : Int
  deriving DecidableEq

/-- `ProgressTracker.update` (`models.py` 232-240). -/
def ProgressTracker.update (p : ProgressTracker) (count : Int) (now : Int) : ProgressTracker :=
  { p with processed_items := p.processed_items + count, last_update_time := now }

/-- `ProgressTracker.is_stalled` (`models.py` 242-250). -/
def ProgressTracker.is_stalled (p : ProgressTracker) (now : Int) : Bool :=
  decide (p.stall_timeout < now - p.last_update_time)

/-- A raw message as the fetch loop reads it: of the Python dict the core
uses only `"id"` and `"timestamp"`.  `msg.get("timestamp", "")` yields `""`
for an absent key, so a missing timestamp is the empty token. -/
structure Msg where
  id : String
  timestamp : String
  deriving DecidableEq

/-- Accumulating decimal parse over a token's characters; any non-digit
character fails the parse. -/
def parseDecAux : List Char → Nat → Option Nat
  | [], acc => some acc
  | c :: cs, acc =>
    let n := c.toNat
    if 48 ≤ n ∧ n ≤ 57 then parseDecAux cs (acc * 10 + (n - 48)) else none

/-- `datetime.fromisoformat` on the embedding's canonical timestamp tokens
(see the module docstring): a non-empty decimal integer literal parses to
the instant it denotes; any other token raises `ValueError` (`none`).
Canonical tokens contain no "Z" suffix, so the source's
`.replace("Z", "+00:00")` preprocessing is the identity on them and is
folded into this parse model. -/
def fromisoformat (s : String) : Option Int :=
  match s.data with
  | [] => none
  | cs => (parseDecAux cs 0).map Int.ofNat

/-- The two `if` statements of `_filter_messages_by_date` that compute
`include_message` for one parsed timestamp (`fetcher.py` 228-232). -/
def includeMessage (start_date end_date : Option Int) (msg_time : Int) : Bool :=
  let include_message :=
    match start_date with
    | some sd => if msg_time < sd then false else true
    | none => true
  match end_date with
  | some ed => if ed < msg_time then false else include_message
  | none => include_message

/-- The `for msg in messages` loop of
`DiscordMessageFetcher._filter_messages_by_date` (`fetcher.py` 218-237):
messages with an empty timestamp are skipped, an unparsable non-empty
timestamp raises `ValueError` out of the loop, and otherwise the message is
kept iff neither configured bound excludes it. -/
def filterByDateGo (start_date end_date : Option Int) : List Msg → Except String (List Msg)
  | [] => .ok []
  | msg :: rest =>
    let timestamp_str := msg.timestamp
    if timestamp_str = "" then filterByDateGo start_date end_date rest
    else
      match fromisoformat timestamp_str with
      | none => .error "ValueError"
      | some msg_time =>
        match filterByDateGo start_date end_date rest with
        | .error e => .error e
        | .ok tail =>
          .ok (if includeMessage start_date end_date msg_time then msg :: tail else tail)

/-- `DiscordMessageFetcher._filter_messages_by_date` (`fetcher.py` 205-237):
with neither bound configured the input list is returned unchanged. -/
def filter_messages_by_date (start_date end_date : Option Int) (messages : List Msg) :
    Except String (List Msg) :=
  if start_date.isNone && end_date.isNone then .ok messages
  else filterByDateGo start_date end_date messages

/-- `models.CheckpointData` (`models.py` 155-221). -/
structure CheckpointData where
  channel_id : String
  oldest_message_id : Option String
  batch_count : Int
  total_messages : Int
  last_updated : Int
  deriving DecidableEq

/-- A JSON value as produced by `json.load`. -/
inductive JVal where
  | jnull
  | jbool (b : Bool)
  | jnum (n : Int)
  | jstr (s : String)
  | jarr (elems : List JVal)
  | jobj (fields : List (String × JVal))

/-- What opening and `json.load`-ing the checkpoint file can yield:
no file (`FileNotFoundError`), undecodable text (`json.JSONDecodeError`),
or a decoded value. -/
inductive FileContent where
  | missing
  | unparsable (raw : String)
  | parsed (data : JVal)

/-- Python `data.get(key, default)`: dictionary lookup with a default;
raises `AttributeError` when `data` is not a dict. -/
def JVal.get (data : JVal) (key : String) (default : JVal) : Except String JVal :=
  match data with
  | .jobj fields =>
    match fields.lookup key with
    | some v => .ok v
    | none => .ok default
  | _ => .error "AttributeError"

/-- Python `str()` of a JSON-decoded value (only the string case is ever
exercised by a well-formed checkpoint file). -/
def JVal.pyStr : JVal → String
  | .jnull => "None"
  | .jbool b => if b then "True" else "False"
  | .jnum n => toString n
  | .jstr s => s
  | .jarr _ => "<list>"
  | .jobj _ => "<dict>"

/-- Python `int()` applied to a string: an optional minus sign followed by
decimal digits converts, anything else raises `ValueError` (canonical file
tokens carry no surrounding whitespace, so `int()`-stripped whitespace does
not arise). -/
def pyIntOfString (s : String) : Option Int :=
  match s.data with
  | [] => none
  | c :: cs =>
    if c = '-' then
      match cs with
      | [] => none
      | _ => (parseDecAux cs 0).map fun n => -(n : Int)
    else (parseDecAux (c :: cs) 0).map Int.ofNat

/-- Python `int()` of a JSON-decoded value: numbers and booleans convert, a
string converts iff it is an integer literal (`ValueError` otherwise), and
anything else raises `TypeError`. -/
def JVal.pyInt : JVal → Except String Int
  | .jnum n => .ok n
  | .jbool b => .ok (if b then 1 else 0)
  | .jstr s =>
    match pyIntOfString s with
    | some n => .ok n
    | none => .error "ValueError"
  | _ => .error "TypeError"

/-- Python truthiness of a JSON-decoded value. -/
def JVal.truthy : JVal → Bool
  | .jnull => false
  | .jbool b => b
  | .jnum n => n != 0
  | .jstr s => s != ""
  | .jarr l => !l.isEmpty
  | .jobj l => !l.isEmpty

/-- `datetime.fromisoformat(v)` applied to a raw decoded value, as the
source does for `last_updated`: a non-string raises `TypeError`, an
unparsable string raises `ValueError`. -/
def JVal.fromiso : JVal → Except String Int
  | .jstr s =>
    match fromisoformat s with
    | some t => .ok t
    | none => .error "ValueError"
  | _ => .error "TypeError"

/-- `CheckpointData.load` (`models.py` 182-221): the `try` body decodes the
file and converts each field in source order; only `FileNotFoundError`,
`json.JSONDecodeError` and `KeyError` are caught (yielding `none`), while
any other exception — `ValueError`/`TypeError` from `int()` or
`fromisoformat`, `AttributeError` from `.get` on a non-dict — propagates
(`Except.error`).  `datetime.now()` is the argument `now`. -/
def CheckpointData.load (fc : FileContent) (now : Int) : Except String (Option CheckpointData) :=
  match fc with
  | .missing => .ok none
  | .unparsable _ => .ok none
  | .parsed data => do
    let cidV ← data.get "channel_id" (.jstr "")
    let channel_id := cidV.pyStr
    let omiV ← data.get "oldest_message_id" .jnull
    let oldest_message_id :=
      match omiV with
      | .jnull => none
      | v => some v.pyStr
    let bcV ← data.get "batch_count" (.jnum 0)
    let batch_count ← bcV.pyInt
    let tmV ← data.get "total_messages" (.jnum 0)
    let total_messages ← tmV.pyInt
    let luV ← data.get "last_updated" (.jstr "")
    let last_updated ← if luV.truthy then luV.fromiso else .ok now
    return some ⟨channel_id, oldest_message_id, batch_count, total_messages, last_updated⟩

/-- Outcome of one underlying `_call_discord_mcp` attempt: a page of raw
messages, or a raised exception message. -/
abbrev PageOutcome := Except String (List Msg)

/-- Draw the next attempt outcome from the scripted source; an exhausted
script behaves like the placeholder in the source file, which always raises
`NotImplementedError`. -/
def takeOutcome : List PageOutcome → PageOutcome × List PageOutcome
  | [] => (.error "NotImplementedError", [])
  | o :: rest => (o, rest)

/-- How `_fetch_messages_batch` can fail (the two `RuntimeError` raises in
`fetcher.py` 124 and 168). -/
inductive FetchErr where
  | circuitOpen
  | fetchFailed (last_error : String)
  deriving DecidableEq

/-- Result of `_fetch_messages_batch`: the outcome, the breaker and clock
after the call, the unread remainder of the source script, and the trace of
back-off sleeps performed. -/
structure RetryOut where
  result : Except FetchErr (List Msg)
  breaker : CircuitBreaker
  now : Int
  src : List PageOutcome
  sleeps : List Int
  deriving DecidableEq

/-- The `while retry_count <= self.max_retries` loop of
`_fetch_messages_batch` (`fetcher.py` 126-168), with the remaining number
of attempts as the structural argument: entered with
`attempts = max_retries + 1 - retry_count`, so the loop guard
`retry_count ≤ max_retries` is `attempts ≠ 0`, and the post-failure guard
`retry_count + 1 ≤ max_retries` is `attempts - 1 ≠ 0`.  After the
`retry_count`-th failure (0-based `rc`), the back-off sleep
`rate_limit_delay * 2 ** (retry_count - 1)` is `delay * 2 ^ rc` and
advances the clock. -/
def retry_loop (delay : Int) :
    Nat → Nat → CircuitBreaker → Int → List PageOutcome → List Int → RetryOut
  | 0, _, cb, now, src, sleeps =>
    ⟨.error (.fetchFailed "exhausted"), cb, now, src, sleeps⟩
  | attempts + 1, rc, cb, now, src, sleeps =>
    match takeOutcome src with
    | (.ok raw_messages, src') => ⟨.ok raw_messages, cb.record_success, now, src', sleeps⟩
    | (.error e, src') =>
      let cb' := cb.record_failure now
      if attempts = 0 then
        ⟨.error (.fetchFailed e), cb', now, src', sleeps⟩
      else
        let wait_time := delay * 2 ^ rc
        retry_loop delay attempts (rc + 1) cb' (now + wait_time) src' (sleeps ++ [wait_time])

/-- `DiscordMessageFetcher._fetch_messages_batch` (`fetcher.py` 110-168):
one `can_execute` consultation up front — raising the circuit-open
`RuntimeError` without touching the breaker when it denies — then the
retry loop. -/
def fetch_messages_batch (max_retries : Nat) (delay : Int) (cb : CircuitBreaker) (now : Int)
    (src : List PageOutcome) : RetryOut :=
  if cb.can_execute now then retry_loop delay (max_retries + 1) 0 cb now src []
  else ⟨.error .circuitOpen, cb, now, src, []⟩

/-- The mutable fields of `DiscordMessageFetcher` together with the
explicit clock and the on-disk artefacts (saved page files and checkpoint
file). -/
structure FetchState where
  channel_id : String
  rate_limit_delay : Int
  max_retries : Nat
  start_date : Option Int
  end_date : Option Int
  oldest_message_id : Option String
  batch_count : Int
  total_messages : Int
  breaker : CircuitBreaker
  progress : ProgressTracker
  saved_batches : List (Int × List Msg)
  checkpoint_disk : Option CheckpointData
  now : Int
  deriving DecidableEq

/-- The checkpoint `_save_checkpoint` writes from the current object state
(`fetcher.py` 98-108); its `last_updated` defaults to `datetime.now()`. -/
def FetchState.current_checkpoint (st : FetchState) : CheckpointData :=
  ⟨st.channel_id, st.oldest_message_id, st.batch_count, st.total_messages, st.now⟩

/-- Success flag for the next file write drawn from the write oracle; an
empty oracle means every write succeeds. -/
def popSave : List Bool → Bool × List Bool
  | [] => (true, [])
  | b :: rest => (b, rest)

/-- How one invocation of the `fetch_all` loop ends. -/
inductive StopReason where
  | stalled
  | fetchError (e : FetchErr)
  | exhausted
  | swallowed (e : String)
  | fuelOut
  deriving DecidableEq

/-- Step outcome of one `fetch_all` loop iteration. -/
inductive StepOut where
  | stop (st : FetchState) (reason : StopReason) (src : List PageOutcome) (saves : List Bool)
  | next (st : FetchState) (src : List PageOutcome) (saves : List Bool)

/-- One iteration of the `while True` loop of `fetch_all`
(`fetcher.py` 276-317).  `.stop _ (.fetchError _)` is the
`except (RuntimeError, NotImplementedError)` break; `.stop _ (.swallowed _)`
is the enclosing `except Exception` arm of `fetch_all`, reached by the
filter's `ValueError` or by an `IOError` from a file write inside the loop
(the state keeps exactly the assignments executed before the raise). -/
def fetch_iteration (st : FetchState) (src : List PageOutcome) (saves : List Bool) : StepOut :=
  if st.progress.is_stalled st.now then .stop st .stalled src saves
  else
    let out := fetch_messages_batch st.max_retries st.rate_limit_delay st.breaker st.now src
    let st := { st with breaker := out.breaker, now := out.now }
    match out.result with
    | .error e => .stop st (.fetchError e) out.src saves
    | .ok raw_messages =>
      match filter_messages_by_date st.start_date st.end_date raw_messages with
      | .error e => .stop st (.swallowed e) out.src saves
      | .ok messages =>
        if messages.isEmpty then .stop st .exhausted out.src saves
        else
          let st := { st with batch_count := st.batch_count + 1 }
          let s1 := popSave saves
          if !s1.1 then .stop st (.swallowed "IOError") out.src s1.2
          else
            let st := { st with saved_batches := st.saved_batches ++ [(st.batch_count, messages)] }
            let st := { st with
              oldest_message_id := some (messages.getLastD ⟨"", ""⟩).id,
              total_messages := st.total_messages + (messages.length : Int) }
            let st := { st with progress := st.progress.update (messages.length : Int) st.now }
            let s2 := popSave s1.2
            if !s2.1 then .stop st (.swallowed "IOError") out.src s2.2
            else
              let st := { st with checkpoint_disk := some st.current_checkpoint }
              let st := { st with now := st.now + st.rate_limit_delay }
              .next st out.src s2.2

/-- Exit of one `fetch_all` loop run. -/
structure LoopOut where
  st : FetchState
  reason : StopReason
  src : List PageOutcome
  saves : List Bool
  deriving DecidableEq

/-- The `while True` loop of `fetch_all`, iterated to its break/exception
exit; `fuel` bounds the number of iterations (`.fuelOut` marks a truncated
run — the claims below concern terminating executions). -/
def fetch_loop : Nat → FetchState → List PageOutcome → List Bool → LoopOut
  | 0, st, src, saves => ⟨st, .fuelOut, src, saves⟩
  | fuel + 1, st, src, saves =>
    match fetch_iteration st src saves with
    | .stop st' r src' saves' => ⟨st', r, src', saves'⟩
    | .next st' src' saves' => fetch_loop fuel st' src' saves'

/-- `DiscordMessageFetcher.fetch_all` (`fetcher.py` 258-329): run the loop
(every loop exit, including the broad `except Exception` arm, falls
through), then the `finally` block writes the checkpoint one last time —
the single write whose `IOError` still propagates out of `fetch_all` — and
the cumulative message count is returned with the final object/disk
state. -/
def fetch_all (fuel : Nat) (st : FetchState) (src : List PageOutcome) (saves : List Bool) :
    Except String (Int × FetchState) :=
  let out := fetch_loop fuel st src saves
  let s := popSave out.saves
  if s.1 then
    let stF := { out.st with checkpoint_disk := some out.st.current_checkpoint }
    .ok (stF.total_messages, stF)
  else .error "IOError"

/-- `DiscordMessageFetcher.__init__` together with `_load_checkpoint`
(`fetcher.py` 30-96), for a fetcher whose checkpoint file decoded to
`loaded`: resume cursor and counters iff a checkpoint was loaded and its
channel matches, else start fresh; the breaker is
`CircuitBreaker(max_failures=max_retries)` (default `reset_timeout` 60 s)
and the tracker `ProgressTracker(stall_timeout=300)`. -/
def initFetcher (channel_id : String) (rate_limit_delay : Int) (max_retries : Nat)
    (start_date end_date : Option Int) (loaded : Option CheckpointData) (now : Int) :
    FetchState :=
  let resumed :=
    match loaded with
    | some cp => if cp.channel_id = channel_id then some cp else none
    | none => none
  { channel_id := channel_id
    rate_limit_delay := rate_limit_delay
    max_retries := max_retries
    start_date := start_date
    end_date := end_date
    oldest_message_id := match resumed with | some cp => cp.oldest_message_id | none => none
    batch_count := match resumed with | some cp => cp.batch_count | none => 0
    total_messages := match resumed with | some cp => cp.total_messages | none => 0
    breaker := CircuitBreaker.init max_retries 60
    progress := ⟨0, 0, 300, now⟩
    saved_batches := []
    checkpoint_disk := loaded
    now := now }

/-- Breaker states reachable from a freshly constructed breaker by its
operations (`can_execute` performs no assignment to the receiver). -/
inductive ReachableCB : CircuitBreaker → Prop where
  | init (mf : Nat) (rt : Int) : ReachableCB (CircuitBreaker.init mf rt)
  | fail {cb : CircuitBreaker} (now : Int) :
      ReachableCB cb → ReachableCB (cb.record_failure now)
  | succ {cb : CircuitBreaker} : ReachableCB cb → ReachableCB cb.record_success

/-- The specification's filtering predicate, written from the spec's words:
an item with instant `t` is kept iff (no start bound or `t ≥ start`) and
(no end bound or `t ≤ end`).  Stated separately from the source-derived
`includeMessage` so the two can be compared. -/
def keptSpec (start_date end_date : Option Int) (t : Int) : Bool :=
  start_date.all (fun sd => sd ≤ t) && end_date.all (fun ed => t ≤ ed)

/-- The parsed instant of a message's timestamp token, exactly as the
filter computes it. -/
def msgInstant (m : Msg) : Option Int :=
  fromisoformat m.timestamp

/-- First page of the end-to-end scenario: five messages, newest first. -/
def pageA : List Msg :=
  [⟨"m1", "100"⟩, ⟨"m2", "99"⟩, ⟨"m3", "98"⟩, ⟨"m4", "97"⟩, ⟨"m5", "96"⟩]

/-- Second page of the end-to-end scenario: five older messages. -/
def pageB : List Msg :=
  [⟨"m6", "95"⟩, ⟨"m7", "94"⟩, ⟨"m8", "93"⟩, ⟨"m9", "92"⟩, ⟨"m10", "91"⟩]

theorem can_execute_of_not_open (cb : CircuitBreaker) (now : Int) (h : cb.is_open = false) :
    cb.can_execute now = true := by
  cases hl : cb.last_failure_time <;> simp [CircuitBreaker.can_execute, h, hl]

theorem can_execute_false_of_within (cb : CircuitBreaker) (now t : Int)
    (ho : cb.is_open = true) (hl : cb.last_failure_time = some t)
    (hw : now - t ≤ cb.reset_timeout) : cb.can_execute now = false := by
  simp [CircuitBreaker.can_execute, ho, hl, not_lt.mpr hw]

theorem can_execute_true_of_elapsed (cb : CircuitBreaker) (now t : Int)
    (ho : cb.is_open = true) (hl : cb.last_failure_time = some t)
    (hw : cb.reset_timeout < now - t) : cb.can_execute now = true := by
  simp [CircuitBreaker.can_execute, ho, hl, hw]

theorem record_failure_failures (cb : CircuitBreaker) (now : Int) :
    (cb.record_failure now).failures = cb.failures + 1 := rfl

theorem range_pow_shift (delay : Int) (rc n : Nat) :
    (delay * 2 ^ rc) :: (List.range n).map (fun i => delay * 2 ^ (rc + 1 + i))
      = (List.range (n + 1)).map (fun i => delay * 2 ^ (rc + i)) := by
  rw [List.range_succ_eq_map, List.map_cons, List.map_map]
  refine congrArg₂ _ (by rw [Nat.add_zero]) ?_
  refine List.map_congr_left fun i _ => ?_
  have : rc + 1 + i = rc + (i + 1) := by omega
  rw [Function.comp_apply, this]

theorem retry_loop_ok (delay : Int) (msgs : List Msg) (rest : List PageOutcome) :
    ∀ (errs : List String) (attempts rc : Nat) (cb : CircuitBreaker) (now : Int)
      (sleeps : List Int), errs.length < attempts →
      (retry_loop delay attempts rc cb now
          (errs.map .error ++ (.ok msgs :: rest)) sleeps).result = .ok msgs ∧
      (retry_loop delay attempts rc cb now
          (errs.map .error ++ (.ok msgs :: rest)) sleeps).sleeps
        = sleeps ++ (List.range errs.length).map (fun i => delay * 2 ^ (rc + i)) ∧
      (retry_loop delay attempts rc cb now
          (errs.map .error ++ (.ok msgs :: rest)) sleeps).breaker.failures = 0 ∧
      (retry_loop delay attempts rc cb now
          (errs.map .error ++ (.ok msgs :: rest)) sleeps).src = rest := by
  intro errs
  induction errs with
  | nil =>
    intro attempts rc cb now sleeps h
    obtain ⟨a, rfl⟩ : ∃ a, attempts = a + 1 := ⟨attempts - 1, by omega⟩
    simp [retry_loop, takeOutcome, CircuitBreaker.record_success]
  | cons e es ih =>
    intro attempts rc cb now sleeps h
    simp only [List.length_cons] at h
    obtain ⟨a, rfl⟩ : ∃ a, attempts = a + 1 := ⟨attempts - 1, by omega⟩
    have ha : ¬ a = 0 := by omega
    simp only [List.map_cons, List.cons_append, retry_loop, takeOutcome, if_neg ha]
    have hrec := ih a (rc + 1) (cb.record_failure now) (now + delay * 2 ^ rc)
      (sleeps ++ [delay * 2 ^ rc]) (by omega)
    refine ⟨hrec.1, ?_, hrec.2.2.1, hrec.2.2.2⟩
    rw [hrec.2.1, List.append_assoc, List.singleton_append, range_pow_shift]
    simp [List.length_cons]

theorem retry_loop_exhaust (delay : Int) (rest : List PageOutcome) :
    ∀ (errs : List String) (rc : Nat) (cb : CircuitBreaker) (now : Int)
      (sleeps : List Int), errs ≠ [] →
      (∃ e, (retry_loop delay errs.length rc cb now
          (errs.map .error ++ rest) sleeps).result = .error (.fetchFailed e)) ∧
      (retry_loop delay errs.length rc cb now
          (errs.map .error ++ rest) sleeps).sleeps
        = sleeps ++ (List.range (errs.length - 1)).map (fun i => delay * 2 ^ (rc + i)) ∧
      (retry_loop delay errs.length rc cb now
          (errs.map .error ++ rest) sleeps).breaker.failures = cb.failures + errs.length ∧
      (retry_loop delay errs.length rc cb now
          (errs.map .error ++ rest) sleeps).src = rest := by
  intro errs
  induction errs with
  | nil => intro _ _ _ _ hne; exact absurd rfl hne
  | cons e es ih =>
    intro rc cb now sleeps _
    by_cases hes : es = []
    · subst hes
      simp [retry_loop, takeOutcome, record_failure_failures]
    · have hlen : ¬ es.length = 0 := by
        simpa [List.length_eq_zero] using hes
      simp only [List.length_cons, List.map_cons, List.cons_append, retry_loop, takeOutcome,
        if_neg hlen]
      have hrec := ih (rc + 1) (cb.record_failure now) (now + delay * 2 ^ rc)
        (sleeps ++ [delay * 2 ^ rc]) hes
      refine ⟨hrec.1, ?_, ?_, hrec.2.2.2⟩
      · rw [hrec.2.1, List.append_assoc, List.singleton_append]
        have hn : es.length - 1 + 1 = es.length := by omega
        rw [range_pow_shift, hn]
        have : e :: es ≠ [] := by simp
        simp [List.length_cons]
      · rw [hrec.2.2.1, record_failure_failures]
        omega

/-- Claim C4: starting from a freshly constructed breaker, every operation
preserves the invariant that the open flag is set only once
`failures ≥ max_failures`; with max-failures 3, three consecutive
`record_failure` calls open the breaker exactly on the third; and
`record_success` always resets the failure count, clears the last-failure
timestamp, and closes the breaker. -/
theorem C4_breaker_invariant :
    (∀ cb : CircuitBreaker, ReachableCB cb → cb.is_open = true →
      cb.max_failures ≤ cb.failures)
    ∧ (∀ t1 t2 t3 : Int,
        ((CircuitBreaker.init 3 60).record_failure t1).is_open = false ∧
        (((CircuitBreaker.init 3 60).record_failure t1).record_failure t2).is_open = false ∧
        ((((CircuitBreaker.init 3 60).record_failure t1).record_failure t2).record_failure
          t3).is_open = true ∧
        ((((CircuitBreaker.init 3 60).record_failure t1).record_failure t2).record_failure
          t3).failures = 3)
    ∧ (∀ cb : CircuitBreaker,
        cb.record_success.failures = 0 ∧ cb.record_success.last_failure_time = none ∧
        cb.record_success.is_open = false) := by
  refine ⟨?_, ?_, ?_⟩
  · intro cb h
    induction h with
    | init mf rt => intro hopen; simp [CircuitBreaker.init] at hopen
    | @fail cb now _ ih =>
      intro hopen
      have hmax : (cb.record_failure now).max_failures = cb.max_failures := rfl
      have hfail : (cb.record_failure now).failures = cb.failures + 1 := rfl
      rw [hmax, hfail]
      by_cases hc : cb.max_failures ≤ cb.failures + 1
      · exact hc
      · have hopen' : cb.is_open = true := by
          have : (cb.record_failure now).is_open = cb.is_open := by
            simp [CircuitBreaker.record_failure, hc]
          rw [this] at hopen
          exact hopen
        have := ih hopen'
        omega
    | succ _ ih => intro hopen; simp [CircuitBreaker.record_success] at hopen
  · intro t1 t2 t3
    refine ⟨?_, ?_, ?_, ?_⟩ <;> simp [CircuitBreaker.init, CircuitBreaker.record_failure]
  · intro cb; simp [CircuitBreaker.record_success]

/-- Witness for C4 at concrete inputs: a breaker opened by three recorded
failures is reachable and satisfies the invariant, the threshold scenario
holds at times 5, 6, 7, and a concrete `record_success` resets. -/
theorem C4_breaker_invariant_witness :
    ((((CircuitBreaker.init 3 60).record_failure 0).record_failure 0).record_failure
        0).max_failures ≤
      ((((CircuitBreaker.init 3 60).record_failure 0).record_failure 0).record_failure
        0).failures ∧
    (((CircuitBreaker.init 3 60).record_failure 5).is_open = false ∧
      (((CircuitBreaker.init 3 60).record_failure 5).record_failure 6).is_open = false ∧
      ((((CircuitBreaker.init 3 60).record_failure 5).record_failure 6).record_failure
        7).is_open = true ∧
      ((((CircuitBreaker.init 3 60).record_failure 5).record_failure 6).record_failure
        7).failures = 3) ∧
    ((CircuitBreaker.init 3 60).record_success.failures = 0 ∧
      (CircuitBreaker.init 3 60).record_success.last_failure_time = none ∧
      (CircuitBreaker.init 3 60).record_success.is_open = false) :=
  ⟨C4_breaker_invariant.1 _
      (ReachableCB.fail 0 (ReachableCB.fail 0 (ReachableCB.fail 0 (ReachableCB.init 3 60))))
      (by decide),
    C4_breaker_invariant.2.1 5 6 7,
    C4_breaker_invariant.2.2 (CircuitBreaker.init 3 60)⟩

/-- Claim C5 (amended): `can_execute` returns true whenever the breaker is
not open; when open with a last-failure stamp it returns false while the
elapsed time is at most the reset-timeout, and true once the elapsed time
strictly exceeds the reset-timeout (at exactly the timeout it still
returns false — see the counterexample). -/
theorem C5_half_open_can_execute :
    (∀ (cb : CircuitBreaker) (now : Int), cb.is_open = false → cb.can_execute now = true)
    ∧ (∀ (cb : CircuitBreaker) (now t : Int), cb.is_open = true →
        cb.last_failure_time = some t → now - t ≤ cb.reset_timeout →
        cb.can_execute now = false)
    ∧ (∀ (cb : CircuitBreaker) (now t : Int), cb.is_open = true →
        cb.last_failure_time = some t → cb.reset_timeout < now - t →
        cb.can_execute now = true) :=
  ⟨fun cb now => can_execute_of_not_open cb now,
    fun cb now t => can_execute_false_of_within cb now t,
    fun cb now t => can_execute_true_of_elapsed cb now t⟩

/-- Counterexample to claim C5 as stated: the breaker produced by three
consecutive failures of a fresh breaker (max-failures 3, reset-timeout 60,
last failure at time 0) is open, and at time 60 exactly 60 seconds — hence
at least 60 seconds — have elapsed, yet `can_execute` still returns false:
the code requires strictly more than the reset-timeout. -/
theorem C5_counterexample :
    (60 : Int) ≤ 60 - 0 ∧
    ((((CircuitBreaker.init 3 60).record_failure 0).record_failure 0).record_failure
      0).is_open = true ∧
    ((((CircuitBreaker.init 3 60).record_failure 0).record_failure 0).record_failure
      0).last_failure_time = some 0 ∧
    ((((CircuitBreaker.init 3 60).record_failure 0).record_failure 0).record_failure
      0).can_execute 60 = false := by decide

/-- Witness for C5 at concrete inputs: a fresh breaker may execute; an open
breaker with the last failure at time 0 is denied at time 59 and allowed at
time 61. -/
theorem C5_half_open_can_execute_witness :
    (CircuitBreaker.init 3 60).can_execute 0 = true ∧
    (⟨3, 60, 3, some 0, true⟩ : CircuitBreaker).can_execute 59 = false ∧
    (⟨3, 60, 3, some 0, true⟩ : CircuitBreaker).can_execute 61 = true :=
  ⟨C5_half_open_can_execute.1 (CircuitBreaker.init 3 60) 0 rfl,
    C5_half_open_can_execute.2.1 ⟨3, 60, 3, some 0, true⟩ 59 0 rfl rfl (by decide),
    C5_half_open_can_execute.2.2 ⟨3, 60, 3, some 0, true⟩ 61 0 rfl rfl (by decide)⟩

/-- Claim C10: `can_execute` never mutates the breaker — any number of
successive calls leaves the receiver unchanged and returns the same answer
every time; in particular, when the breaker is open and the reset-timeout
has elapsed, repeated calls all return true (the probe permission is not
consumed by the query itself). -/
theorem C10_can_execute_is_pure :
    (∀ (cb : CircuitBreaker) (now : Int) (n : Nat),
        (cb.can_execute_calls now n).1 = cb ∧
        (cb.can_execute_calls now n).2 = List.replicate n (cb.can_execute now))
    ∧ (∀ (cb : CircuitBreaker) (now t : Int) (n : Nat),
        cb.is_open = true → cb.last_failure_time = some t →
        cb.reset_timeout < now - t →
        (cb.can_execute_calls now n).2 = List.replicate n true) := by
  have hpure : ∀ (cb : CircuitBreaker) (now : Int) (n : Nat),
      (cb.can_execute_calls now n).1 = cb ∧
      (cb.can_execute_calls now n).2 = List.replicate n (cb.can_execute now) := by
    intro cb now n
    induction n with
    | zero => simp [CircuitBreaker.can_execute_calls]
    | succ n ih =>
      simp [CircuitBreaker.can_execute_calls, CircuitBreaker.can_execute_st, ih.1, ih.2,
        List.replicate_succ]
  refine ⟨hpure, fun cb now t n ho hl hw => ?_⟩
  rw [(hpure cb now n).2, can_execute_true_of_elapsed cb now t ho hl hw]

/-- Witness for C10 at a concrete open breaker past its reset-timeout:
five successive `can_execute` calls all answer true. -/
theorem C10_can_execute_is_pure_witness :
    ((⟨3, 60, 3, some 0, true⟩ : CircuitBreaker).can_execute_calls 100 5).2
      = List.replicate 5 true :=
  C10_can_execute_is_pure.2 ⟨3, 60, 3, some 0, true⟩ 100 0 5 rfl rfl (by decide)

/-- Claim C3 (amended): the circuit breaker is consulted exactly once per
single-page fetch, before the first underlying attempt; when it denies, the
fetch fails immediately with the circuit-open condition, performs no
attempt, records no failure, and leaves the breaker untouched.  (It is not
re-consulted before retries — see the counterexample.) -/
theorem C3_breaker_gate_before_first_attempt (max_retries : Nat) (delay : Int)
    (cb : CircuitBreaker) (now : Int) (src : List PageOutcome)
    (hdeny : cb.can_execute now = false) :
    fetch_messages_batch max_retries delay cb now src
      = ⟨.error .circuitOpen, cb, now, src, []⟩ := by
  simp [fetch_messages_batch, hdeny]

/-- Witness for C3 at a concrete denied fetch: an open breaker within its
reset-timeout makes the fetch fail with circuit-open and unchanged
breaker. -/
theorem C3_breaker_gate_before_first_attempt_witness :
    fetch_messages_batch 5 1 ⟨3, 60, 3, some 0, true⟩ 10 [.ok [⟨"m1", "7"⟩]]
      = ⟨.error .circuitOpen, ⟨3, 60, 3, some 0, true⟩, 10, [.ok [⟨"m1", "7"⟩]], []⟩ :=
  C3_breaker_gate_before_first_attempt 5 1 ⟨3, 60, 3, some 0, true⟩ 10 [.ok [⟨"m1", "7"⟩]]
    (by decide)

/-- Counterexample to claim C3 as stated: in a single-page fetch with
max-retries 5 and a fresh breaker (max-failures 5, reset-timeout 60), five
failures at clock times 0, 1, 3, 7, 15 open the breaker, and at clock time
31 — the instant of the sixth underlying attempt, after back-off sleeps of
1, 2, 4, 8, 16 — `can_execute` would return false; yet the fetch performs
that sixth attempt anyway and returns its page instead of failing with the
circuit-open condition: the breaker is not consulted before retries. -/
theorem C3_counterexample :
    ((((((CircuitBreaker.init 5 60).record_failure 0).record_failure 1).record_failure
        3).record_failure 7).record_failure 15).can_execute 31 = false ∧
    (fetch_messages_batch 5 1 (CircuitBreaker.init 5 60) 0
        [.error "e1", .error "e2", .error "e3", .error "e4", .error "e5",
          .ok [⟨"m1", "7"⟩]]).sleeps = [1, 2, 4, 8, 16] ∧
    (fetch_messages_batch 5 1 (CircuitBreaker.init 5 60) 0
        [.error "e1", .error "e2", .error "e3", .error "e4", .error "e5",
          .ok [⟨"m1", "7"⟩]]).result = .ok [⟨"m1", "7"⟩] := by decide

/-- Claim C8: in a single-page fetch starting with a fresh (closed,
zero-failure) breaker, each underlying failure is recorded in the breaker,
and while attempts remain within max-retries the loop sleeps
`delay * 2 ^ attemptIndex` (attemptIndex starting at 0 for the first
retry) and retries: with `k ≤ max_retries` leading failures the fetch
succeeds after sleeps `delay*2^0, …, delay*2^(k-1)`, and with
`max_retries + 1` failures every attempt is consumed, all failures are
recorded, the sleeps are `delay*2^0, …, delay*2^(max_retries-1)`, and the
fetch surfaces a fetch-failure condition. -/
theorem C8_retry_backoff (max_retries : Nat) (delay now : Int) (mf : Nat) (rt : Int)
    (errs : List String) (msgs : List Msg) (rest : List PageOutcome) :
    (errs.length ≤ max_retries →
      (fetch_messages_batch max_retries delay (CircuitBreaker.init mf rt) now
          (errs.map .error ++ (.ok msgs :: rest))).result = .ok msgs ∧
      (fetch_messages_batch max_retries delay (CircuitBreaker.init mf rt) now
          (errs.map .error ++ (.ok msgs :: rest))).sleeps
        = (List.range errs.length).map (fun i => delay * 2 ^ i) ∧
      (fetch_messages_batch max_retries delay (CircuitBreaker.init mf rt) now
          (errs.map .error ++ (.ok msgs :: rest))).breaker.failures = 0)
    ∧ (errs.length = max_retries + 1 →
      (∃ e, (fetch_messages_batch max_retries delay (CircuitBreaker.init mf rt) now
          (errs.map .error ++ rest)).result = .error (.fetchFailed e)) ∧
      (fetch_messages_batch max_retries delay (CircuitBreaker.init mf rt) now
          (errs.map .error ++ rest)).sleeps
        = (List.range max_retries).map (fun i => delay * 2 ^ i) ∧
      (fetch_messages_batch max_retries delay (CircuitBreaker.init mf rt) now
          (errs.map .error ++ rest)).breaker.failures = max_retries + 1) := by
  have hexec : (CircuitBreaker.init mf rt).can_execute now = true :=
    can_execute_of_not_open _ _ rfl
  constructor
  · intro hle
    have h := retry_loop_ok delay msgs rest errs (max_retries + 1) 0
      (CircuitBreaker.init mf rt) now [] (by omega)
    simp only [fetch_messages_batch, hexec, if_true]
    refine ⟨h.1, ?_, h.2.2.1⟩
    rw [h.2.1]
    simp
  · intro heq
    have hne : errs ≠ [] := by
      intro h0
      rw [h0] at heq
      simp at heq
    have h := retry_loop_exhaust delay rest errs 0 (CircuitBreaker.init mf rt) now [] hne
    simp only [fetch_messages_batch, hexec, if_true]
    rw [show max_retries + 1 = errs.length from heq.symm]
    refine ⟨h.1, ?_, ?_⟩
    · rw [h.2.1]
      have : errs.length - 1 = max_retries := by omega
      simp [this]
    · rw [h.2.2.1, heq]
      simp [CircuitBreaker.init]

/-- Witness for C8 at concrete inputs: max-retries 2 with one failure then
success sleeps once for 1 second and succeeds; with three failures the
fetch exhausts, sleeping 1 then 2 seconds with three failures recorded. -/
theorem C8_retry_backoff_witness :
    ((fetch_messages_batch 2 1 (CircuitBreaker.init 2 60) 0
        ((["a"] : List String).map .error ++ (.ok [⟨"m", "5"⟩] :: []))).result
          = .ok [⟨"m", "5"⟩] ∧
      (fetch_messages_batch 2 1 (CircuitBreaker.init 2 60) 0
        ((["a"] : List String).map .error ++ (.ok [⟨"m", "5"⟩] :: []))).sleeps
          = (List.range (["a"] : List String).length).map (fun i => (1 : Int) * 2 ^ i) ∧
      (fetch_messages_batch 2 1 (CircuitBreaker.init 2 60) 0
        ((["a"] : List String).map .error ++ (.ok [⟨"m", "5"⟩] :: []))).breaker.failures = 0)
    ∧ ((∃ e, (fetch_messages_batch 2 1 (CircuitBreaker.init 2 60) 0
        ((["a", "b", "c"] : List String).map .error ++ [])).result
          = .error (.fetchFailed e)) ∧
      (fetch_messages_batch 2 1 (CircuitBreaker.init 2 60) 0
        ((["a", "b", "c"] : List String).map .error ++ [])).sleeps
          = (List.range 2).map (fun i => (1 : Int) * 2 ^ i) ∧
      (fetch_messages_batch 2 1 (CircuitBreaker.init 2 60) 0
        ((["a", "b", "c"] : List String).map .error ++ [])).breaker.failures = 2 + 1) :=
  ⟨(C8_retry_backoff 2 1 0 2 60 ["a"] [⟨"m", "5"⟩] []).1 (by decide),
    (C8_retry_backoff 2 1 0 2 60 ["a", "b", "c"] [] []).2 (by decide)⟩

theorem includeMessage_eq_keptSpec (s e : Option Int) (t : Int) :
    includeMessage s e t = keptSpec s e t := by
  rcases s with _ | sd <;> rcases e with _ | ed <;>
    simp only [includeMessage, keptSpec, Option.all_none, Option.all_some,
      Bool.true_and, Bool.and_true] <;>
    repeat' split_ifs <;> simp_all

theorem filterByDateGo_all_parseable (s e : Option Int) :
    ∀ messages : List Msg,
      (∀ m ∈ messages, m.timestamp ≠ "" ∧ (msgInstant m).isSome) →
      filterByDateGo s e messages
        = .ok (messages.filter fun m =>
            match msgInstant m with
            | some t => keptSpec s e t
            | none => false) := by
  intro messages
  induction messages with
  | nil => intro _; simp [filterByDateGo]
  | cons m rest ih =>
    intro hall
    obtain ⟨hts, hps⟩ := hall m (by simp)
    obtain ⟨t, ht⟩ := Option.isSome_iff_exists.mp hps
    have hrest := ih fun x hx => hall x (by simp [hx])
    simp only [filterByDateGo, if_neg hts]
    rw [show fromisoformat m.timestamp = msgInstant m from rfl, ht, hrest]
    simp [List.filter_cons, ht, includeMessage_eq_keptSpec]

/-- Claim C6 (amended): when every item has a non-empty, parseable
timestamp, an item is kept iff (no start or item-time ≥ start) and (no end
or item-time ≤ end); with no bounds configured the input is returned
unchanged; items with an empty (missing) timestamp are dropped silently
when a bound is set; and the concrete Jan-1/Jan-15/Jan-31 scenarios hold.
(An item with a non-empty unparsable timestamp makes the filter raise
`ValueError` instead of being dropped — see the counterexample.) -/
theorem C6_date_filter :
    (∀ (s e : Option Int) (messages : List Msg),
        (∀ m ∈ messages, m.timestamp ≠ "" ∧ (msgInstant m).isSome) →
        filter_messages_by_date s e messages
          = .ok (messages.filter fun m =>
              match msgInstant m with
              | some t => keptSpec s e t
              | none => false))
    ∧ (∀ messages : List Msg, filter_messages_by_date none none messages = .ok messages)
    ∧ (∀ (s e : Option Int) (m : Msg) (rest : List Msg),
        (s.isSome || e.isSome) = true → m.timestamp = "" →
        filter_messages_by_date s e (m :: rest) = filter_messages_by_date s e rest)
    ∧ (filter_messages_by_date (some 10) none [⟨"1", "1"⟩, ⟨"2", "15"⟩, ⟨"3", "31"⟩]
        = .ok [⟨"2", "15"⟩, ⟨"3", "31"⟩] ∧
      filter_messages_by_date none (some 20) [⟨"1", "1"⟩, ⟨"2", "15"⟩, ⟨"3", "31"⟩]
        = .ok [⟨"1", "1"⟩, ⟨"2", "15"⟩] ∧
      filter_messages_by_date (some 10) (some 20) [⟨"1", "1"⟩, ⟨"2", "15"⟩, ⟨"3", "31"⟩]
        = .ok [⟨"2", "15"⟩]) := by
  refine ⟨?_, ?_, ?_, by decide⟩
  · intro s e messages hall
    unfold filter_messages_by_date
    by_cases hnone : (s.isNone && e.isNone) = true
    · rw [if_pos hnone]
      simp only [Bool.and_eq_true, Option.isNone_iff_eq_none] at hnone
      obtain ⟨rfl, rfl⟩ := hnone
      congr 1
      symm
      refine List.filter_eq_self.mpr fun m hm => ?_
      obtain ⟨-, hps⟩ := hall m hm
      obtain ⟨t, ht⟩ := Option.isSome_iff_exists.mp hps
      simp [ht, keptSpec]
    · rw [if_neg hnone]
      exact filterByDateGo_all_parseable s e messages hall
  · intro messages
    simp [filter_messages_by_date]
  · intro s e m rest hbound hts
    have hnn : (s.isNone && e.isNone) = false := by
      rcases s with _ | sd <;> rcases e with _ | ed <;> simp_all
    simp [filter_messages_by_date, hnn, filterByDateGo, hts]

/-- Counterexample to claim C6 as stated: with a start bound configured, an
item whose timestamp is non-empty but unparsable is not dropped silently —
the filter raises `ValueError`. -/
theorem C6_counterexample :
    filter_messages_by_date (some 10) none [⟨"m1", "not-a-timestamp"⟩]
      = .error "ValueError" := by decide

/-- Witness for C6 at concrete inputs: the parseable-page characterisation
applied to the Jan messages with start bound 10, and the empty-timestamp
drop applied to one concrete item. -/
theorem C6_date_filter_witness :
    filter_messages_by_date (some 10) none [⟨"1", "1"⟩, ⟨"2", "15"⟩, ⟨"3", "31"⟩]
      = .ok (([⟨"1", "1"⟩, ⟨"2", "15"⟩, ⟨"3", "31"⟩] : List Msg).filter fun m =>
          match msgInstant m with
          | some t => keptSpec (some 10) none t
          | none => false) ∧
    filter_messages_by_date (some 10) none (⟨"x", ""⟩ :: [⟨"2", "15"⟩])
      = filter_messages_by_date (some 10) none [⟨"2", "15"⟩] :=
  ⟨C6_date_filter.1 (some 10) none [⟨"1", "1"⟩, ⟨"2", "15"⟩, ⟨"3", "31"⟩] (by decide),
    C6_date_filter.2.2.1 (some 10) none ⟨"x", ""⟩ [⟨"2", "15"⟩] (by decide) rfl⟩

/-- Counterexample to claim C1 as stated: one loop iteration with start
bound 10 on an unfiltered page `m1`(instant 15), `m2`(instant 5) — whose
last item is `m2` — stores cursor `m1`, the last item of the *filtered*
page, both in memory and in the checkpoint, not the unfiltered boundary
`m2`. -/
theorem C1_counterexample :
    (([⟨"m1", "15"⟩, ⟨"m2", "5"⟩] : List Msg).getLastD ⟨"", ""⟩).id = "m2" ∧
    (fetch_loop 3 (initFetcher "c" 1 5 (some 10) none none 0)
        [.ok [⟨"m1", "15"⟩, ⟨"m2", "5"⟩], .ok []] []).reason = .exhausted ∧
    (fetch_loop 3 (initFetcher "c" 1 5 (some 10) none none 0)
        [.ok [⟨"m1", "15"⟩, ⟨"m2", "5"⟩], .ok []] []).st.oldest_message_id = some "m1" ∧
    (fetch_loop 3 (initFetcher "c" 1 5 (some 10) none none 0)
        [.ok [⟨"m1", "15"⟩, ⟨"m2", "5"⟩], .ok []] []).st.checkpoint_disk.map
          (fun cp => cp.oldest_message_id) = some (some "m1") ∧
    ("m1" : String) ≠ "m2" := by decide

/-- Claim C1 (amended): whenever a loop iteration persists a page and
continues, the stored cursor — both the in-memory `oldest_message_id` and
the one in the freshly written checkpoint — is the identifier of the last
item of the *filtered* page, which is exactly the page just persisted to
disk. -/
theorem C1_cursor_is_last_filtered_item (st : FetchState) (src : List PageOutcome)
    (saves : List Bool) (raw messages : List Msg)
    (hstall : st.progress.is_stalled st.now = false)
    (hres : (fetch_messages_batch st.max_retries st.rate_limit_delay st.breaker st.now
        src).result = .ok raw)
    (hfil : filter_messages_by_date st.start_date st.end_date raw = .ok messages)
    (hne : messages.isEmpty = false)
    (hs1 : (popSave saves).1 = true)
    (hs2 : (popSave (popSave saves).2).1 = true) :
    ∃ st' src' saves',
      fetch_iteration st src saves = .next st' src' saves' ∧
      st'.oldest_message_id = some (messages.getLastD ⟨"", ""⟩).id ∧
      st'.checkpoint_disk.map (fun cp => cp.oldest_message_id)
        = some (some (messages.getLastD ⟨"", ""⟩).id) ∧
      st'.saved_batches.getLastD (0, []) = (st.batch_count + 1, messages) := by
  simp only [fetch_iteration, hstall, Bool.false_eq_true, if_false, hres, hfil, hne,
    hs1, hs2, Bool.not_true, Bool.not_false, if_true]
  refine ⟨_, _, _, rfl, rfl, ?_, ?_⟩
  · simp [FetchState.current_checkpoint]
  · simp [List.getLastD_concat]

/-- Witness for C1 at a concrete iteration: start bound 10, raw page
`m1`(15), `m2`(5); the persisted filtered page is `[m1]` and the cursor
becomes `m1`. -/
theorem C1_cursor_is_last_filtered_item_witness :
    ∃ st' src' saves',
      fetch_iteration (initFetcher "c" 1 5 (some 10) none none 0)
          [.ok [⟨"m1", "15"⟩, ⟨"m2", "5"⟩]] [] = StepOut.next st' src' saves' ∧
      st'.oldest_message_id = some (([⟨"m1", "15"⟩] : List Msg).getLastD ⟨"", ""⟩).id ∧
      st'.checkpoint_disk.map (fun cp => cp.oldest_message_id)
        = some (some (([⟨"m1", "15"⟩] : List Msg).getLastD ⟨"", ""⟩).id) ∧
      st'.saved_batches.getLastD (0, [])
        = ((initFetcher "c" 1 5 (some 10) none none 0).batch_count + 1, [⟨"m1", "15"⟩]) :=
  C1_cursor_is_last_filtered_item _ _ _ [⟨"m1", "15"⟩, ⟨"m2", "5"⟩] [⟨"m1", "15"⟩]
    (by decide) (by decide) (by decide) (by decide) rfl rfl

/-- Claim C7: when the loop run ends in the stall, fetch-failure
(retry-exhausted or circuit-open) or exhausted condition, `fetch_all` does
not raise — provided the final checkpoint write succeeds it returns the
cumulative count retrieved so far; and the only error `fetch_all` can ever
propagate is an `IOError` from writing the checkpoint. -/
theorem C7_fetch_all_returns_count (fuel : Nat) (st : FetchState) (src : List PageOutcome)
    (saves : List Bool) :
    (((fetch_loop fuel st src saves).reason = .stalled ∨
      (∃ e, (fetch_loop fuel st src saves).reason = .fetchError e) ∨
      (fetch_loop fuel st src saves).reason = .exhausted) →
      (popSave (fetch_loop fuel st src saves).saves).1 = true →
      ∃ stF, fetch_all fuel st src saves
        = .ok ((fetch_loop fuel st src saves).st.total_messages, stF))
    ∧ (∀ err, fetch_all fuel st src saves = .error err → err = "IOError") := by
  constructor
  · intro _ hsave
    refine ⟨{ (fetch_loop fuel st src saves).st with
      checkpoint_disk := some (fetch_loop fuel st src saves).st.current_checkpoint }, ?_⟩
    simp [fetch_all, hsave]
  · intro err herr
    simp only [fetch_all] at herr
    split at herr
    · simp at herr
    · simp only [Except.error.injEq] at herr
      exact herr.symm

/-- Witness for C7 at a concrete run that terminates exhausted (empty first
page) with all writes succeeding. -/
theorem C7_fetch_all_returns_count_witness :
    ∃ stF, fetch_all 1 (initFetcher "c" 1 5 none none none 0) [.ok []] []
      = .ok ((fetch_loop 1 (initFetcher "c" 1 5 none none none 0) [.ok []] []).st.total_messages,
          stF) :=
  (C7_fetch_all_returns_count 1 (initFetcher "c" 1 5 none none none 0) [.ok []] []).1
    (Or.inr (Or.inr (by decide))) (by decide)

/-- Claim C9: against a scripted source returning five items per call
twice and then an empty page, with no date filters and a fresh start,
`fetch_all` returns 10, exactly two page files are persisted, and the final
checkpoint records 2 batches and 10 messages. -/
theorem C9_end_to_end :
    (fetch_all 10 (initFetcher "c" 1 5 none none none 0)
        [.ok pageA, .ok pageB, .ok []] []).map (fun p => p.1) = .ok 10 ∧
    (fetch_all 10 (initFetcher "c" 1 5 none none none 0)
        [.ok pageA, .ok pageB, .ok []] []).map (fun p => p.2.saved_batches.length)
      = .ok 2 ∧
    (fetch_all 10 (initFetcher "c" 1 5 none none none 0)
        [.ok pageA, .ok pageB, .ok []] []).map
          (fun p => p.2.checkpoint_disk.map fun cp => (cp.batch_count, cp.total_messages))
      = .ok (some (2, 10)) := by decide

/-- Claim C2: `CheckpointData.load` returns `None` for a missing file and
for undecodable text, but it is not tolerant of every malformed content —
a syntactically valid JSON file whose `batch_count` is a non-numeric
string makes `int()` raise an uncaught `ValueError`, and a valid JSON file
whose top level is not an object makes `.get` raise an uncaught
`AttributeError` (the `except` clause catches only `FileNotFoundError`,
`json.JSONDecodeError` and `KeyError`). -/
theorem C2_load_tolerance :
    CheckpointData.load .missing 5 = .ok none ∧
    CheckpointData.load (.unparsable "this is not valid JSON") 5 = .ok none ∧
    CheckpointData.load
        (.parsed (.jobj [("channel_id", .jstr "c"), ("batch_count", .jstr "oops")])) 5
      = .error "ValueError" ∧
    CheckpointData.load (.parsed (.jarr [])) 5 = .error "AttributeError" ∧
    CheckpointData.load
        (.parsed (.jobj [("channel_id", .jstr "c"), ("oldest_message_id", .jstr "42"),
          ("batch_count", .jnum 2), ("total_messages", .jnum 10),
          ("last_updated", .jstr "7")])) 5
      = .ok (some ⟨"c", some "42", 2, 10, 7⟩) := by decide
